import Mathlib

/-!
Verification development for the disease-predictor repository.

The JavaScript source is shallowly embedded: numbers are modelled as
rationals (`ℚ`), JS `Math.round` as `jsRound`, and each class method as a
Lean function carrying the source file's logic.  Request-level concerns
that no property here depends on (timestamps, CSV/stream I/O, the raw
`patientData.field` string parsing in front of each feature vector, and
the `patientProfile` echo of selected raw inputs) are outside the
embedding boundary; predictions are taken directly on the already-parsed
fixed-order feature vectors, as the spec's external-interface section
describes them.
-/

namespace DiseasePredictor

/-- JavaScript `Math.round`: round half toward positive infinity. -/
def jsRound (q : ℚ) : ℤ := ⌊q + 1/2⌋

/-! ## MLAlgorithms (src/backend/utils/mlAlgorithms.js) -/

/-- `MLAlgorithms.normalize(value, min, max)`. -/
def normalize (value mn mx : ℚ) : ℚ :=
  if mx = mn then 0 else (value - mn) / (mx - mn)

/-- The squared Euclidean distance of `MLAlgorithms.euclideanDistance`.
The source takes `Math.sqrt` of this sum; square root is strictly
monotone on nonnegatives, so ordering and neighbor selection by squared
distance coincide with ordering by the source's distance, and we avoid
irrational values in the embedding.  The source loop runs over
`point1.length` and indexes both arrays in step; here the two lists are
consumed in step, a missing `point2` entry counting as 0 (all call sites
pass equal-length vectors). -/
def euclideanDistanceSq : List ℚ → List ℚ → ℚ
  | [], _ => 0
  | x :: xs, ys => (x - ys.headD 0) ^ 2 + euclideanDistanceSq xs (ys.tailD [])

structure TrainRecord where
  features : List ℚ
  label : Nat
deriving DecidableEq

structure KnnResult where
  prediction : Nat
  confidence : ℤ
  neighbors : Nat
deriving DecidableEq

/-- Ascending comparison on the distance component, the order produced by
the JS comparator `(a, b) => a.distance - b.distance`. -/
def distLE (a b : ℚ × Nat) : Prop := a.1 ≤ b.1

instance : DecidableRel distLE := fun a b => inferInstanceAs (Decidable (a.1 ≤ b.1))
instance : IsTotal (ℚ × Nat) distLE := ⟨fun a b => le_total a.1 b.1⟩
instance : IsTrans (ℚ × Nat) distLE := ⟨fun _ _ _ h h' => le_trans h h'⟩

/-- The `(distance, label)` pairs computed from every training point. -/
def knnDistances (trainData : List TrainRecord) (testPoint : List ℚ) : List (ℚ × Nat) :=
  trainData.map fun item => (euclideanDistanceSq item.features testPoint, item.label)

/-- The distance list sorted ascending by distance (`distances.sort`). -/
def knnSorted (trainData : List TrainRecord) (testPoint : List ℚ) : List (ℚ × Nat) :=
  (knnDistances trainData testPoint).insertionSort distLE

/-- The first `min k |trainData|` entries of the sorted distance list
(`distances.slice(0, k)` after clamping `k`). -/
def knnNeighbors (trainData : List TrainRecord) (testPoint : List ℚ) (k : Nat) :
    List (ℚ × Nat) :=
  (knnSorted trainData testPoint).take (min k trainData.length)

/-- Votes tallied for label `0` among the neighbors. -/
def votes0 (neighbors : List (ℚ × Nat)) : Nat :=
  (neighbors.filter fun p => p.2 == 0).length

/-- Votes tallied for label `1` among the neighbors. -/
def votes1 (neighbors : List (ℚ × Nat)) : Nat :=
  (neighbors.filter fun p => p.2 == 1).length

/-- `MLAlgorithms.knnPredict(trainData, testPoint, k)`.  The JS vote
object is keyed by label; with the data model's binary labels its keys
enumerate as `"0", "1"` in ascending numeric order, so the reduce
`votes[a] > votes[b] ? a : b` returns `0` exactly when `votes0 > votes1`
(ties go to label `1`).  `k = 0`, which no caller uses, would make the JS
reduce throw; here the rational division by zero yields confidence 0. -/
def knnPredict (trainData : List TrainRecord) (testPoint : List ℚ) (k : Nat) : KnnResult :=
  if trainData = [] then ⟨0, 50, 0⟩
  else
    let kc := min k trainData.length
    let neighbors := knnNeighbors trainData testPoint k
    let v0 := votes0 neighbors
    let v1 := votes1 neighbors
    let prediction := if v0 > v1 then 0 else 1
    let winning := if v0 > v1 then v0 else v1
    ⟨prediction, jsRound ((winning : ℚ) / (kc : ℚ) * 100), neighbors.length⟩

/-! ### Helper lemmas about the KNN pipeline -/

lemma knnSorted_length (T : List TrainRecord) (q : List ℚ) :
    (knnSorted T q).length = T.length := by
  unfold knnSorted knnDistances
  rw [(List.perm_insertionSort distLE _).length_eq, List.length_map]

lemma knnNeighbors_length (T : List TrainRecord) (q : List ℚ) (k : Nat) :
    (knnNeighbors T q k).length = min k T.length := by
  unfold knnNeighbors
  rw [List.length_take, knnSorted_length]
  omega

lemma mem_knnNeighbors_label (T : List TrainRecord) (q : List ℚ) (k : Nat)
    (hT : ∀ r ∈ T, r.label = 0 ∨ r.label = 1) :
    ∀ p ∈ knnNeighbors T q k, p.2 = 0 ∨ p.2 = 1 := by
  intro p hp
  have hp' : p ∈ knnSorted T q := List.mem_of_mem_take hp
  have hp'' : p ∈ knnDistances T q :=
    (List.perm_insertionSort distLE _).mem_iff.mp hp'
  obtain ⟨r, hr, rfl⟩ := List.mem_map.mp hp''
  exact hT r hr

lemma votes_sum (nb : List (ℚ × Nat)) (h : ∀ p ∈ nb, p.2 = 0 ∨ p.2 = 1) :
    votes0 nb + votes1 nb = nb.length := by
  induction nb with
  | nil => rfl
  | cons a t ih =>
    have ht : ∀ p ∈ t, p.2 = 0 ∨ p.2 = 1 := fun p hp => h p (List.mem_cons_of_mem a hp)
    have ha := h a (List.mem_cons_self a t)
    have := ih ht
    unfold votes0 votes1 at *
    rcases ha with ha | ha <;> simp [List.filter_cons, ha] <;> omega

/-! ## Shared result shape of the five DiseaseModel `predict` methods.
`timestamp` (real time) and the `patientProfile` echo of raw inputs are
outside the embedding; `analysis.riskFactors` is carried as `riskFactors`. -/

structure PredictionOut where
  disease : String
  prediction : String
  hasDiseaseRisk : Bool
  confidence : ℤ
  riskScore : ℤ
  riskLevel : String
  riskFactors : List String
  recommendations : List String
deriving DecidableEq

/-- Elementwise normalization against a static range table, the
`features.map((val, idx) => normalize(val, ranges[idx].min, ranges[idx].max))`
pattern shared by every model's `normalizeFeatures`. -/
def normalizeWith (ranges : List (ℚ × ℚ)) (features : List ℚ) : List ℚ :=
  features.mapIdx fun idx val =>
    normalize val (ranges.getD idx (0, 0)).1 (ranges.getD idx (0, 0)).2

/-! ## HeartDiseaseModel (src/backend/models/heartDiseaseModel.js)
Feature order: age, sex, cp, trestbps, chol, fbs, restecg, thalach,
exang, oldpeak, slope, ca, thal. -/

def heartRanges : List (ℚ × ℚ) :=
  [(29, 77), (0, 1), (0, 3), (94, 200), (126, 564), (0, 1), (0, 2),
   (71, 202), (0, 1), (0, 6.2), (0, 2), (0, 4), (0, 3)]

def heartNormalizeFeatures (features : List ℚ) : List ℚ :=
  normalizeWith heartRanges features

/-- `HeartDiseaseModel.calculateRiskScore`. -/
def heartCalculateRiskScore (features : List ℚ) : ℚ :=
  let age := features.getD 0 0
  let sex := features.getD 1 0
  let cp := features.getD 2 0
  let trestbps := features.getD 3 0
  let chol := features.getD 4 0
  let fbs := features.getD 5 0
  let thalach := features.getD 7 0
  let exang := features.getD 8 0
  let oldpeak := features.getD 9 0
  let ca := features.getD 11 0
  let score :=
    (if age > 55 then (15 : ℚ) else if age > 45 then 10 else 0)
    + (if sex = 1 then (10 : ℚ) else 0)
    + cp * 8
    + (if trestbps > 140 then (15 : ℚ) else if trestbps > 120 then 8 else 0)
    + (if chol > 240 then (15 : ℚ) else if chol > 200 then 8 else 0)
    + (if fbs = 1 then (10 : ℚ) else 0)
    + (if thalach < 100 then (15 : ℚ) else 0)
    + (if exang = 1 then (15 : ℚ) else 0)
    + oldpeak * 10
    + ca * 8
  min score 100

def heartGetRiskLevel (score : ℚ) : String :=
  if score ≥ 60 then "High" else if score ≥ 35 then "Moderate" else "Low"

/-- The `riskFactors` list built by `HeartDiseaseModel.getAnalysis`. -/
def heartRiskFactors (features : List ℚ) : List String :=
  (if features.getD 0 0 > 55 then ["Age over 55 increases risk"] else [])
  ++ (if features.getD 1 0 = 1 then ["Male gender has higher risk"] else [])
  ++ (if features.getD 3 0 > 140 then ["High blood pressure detected"] else [])
  ++ (if features.getD 4 0 > 240 then ["High cholesterol level"] else [])
  ++ (if features.getD 5 0 = 1 then ["Elevated fasting blood sugar"] else [])
  ++ (if features.getD 7 0 < 100 then ["Low maximum heart rate"] else [])
  ++ (if features.getD 8 0 = 1 then ["Exercise-induced chest pain"] else [])
  ++ (if features.getD 9 0 > 2 then ["Significant ST depression"] else [])

def heartUrgentRecs : List String :=
  ["ðŸš¨ URGENT: Consult a cardiologist immediately",
   "Get a complete cardiac evaluation including ECG and echocardiogram",
   "Do NOT engage in strenuous physical activity until cleared by doctor",
   "Monitor blood pressure and heart rate regularly",
   "Follow prescribed medication strictly",
   "Adopt a heart-healthy diet (low sodium, low fat)",
   "Quit smoking and limit alcohol consumption",
   "Manage stress through relaxation techniques",
   "Regular follow-up appointments are critical"]

def heartModerateRecs : List String :=
  ["Schedule an appointment with a cardiologist for evaluation",
   "Get regular cardiac checkups",
   "Monitor blood pressure weekly",
   "Adopt a heart-healthy lifestyle",
   "Exercise moderately (30 min/day, 5 days/week)",
   "Maintain healthy weight",
   "Reduce salt and saturated fat intake",
   "Manage stress effectively",
   "Annual cardiac screening recommended"]

def heartLowRecs : List String :=
  ["Maintain current healthy lifestyle",
   "Continue regular exercise routine",
   "Eat a balanced, heart-healthy diet",
   "Annual health checkups",
   "Monitor blood pressure periodically",
   "Avoid smoking and excessive alcohol",
   "Manage stress through healthy activities",
   "Stay physically active"]

/-- `HeartDiseaseModel.getRecommendations(prediction, riskScore)`. -/
def heartGetRecommendations (prediction : Nat) (riskScore : ℚ) : List String :=
  if prediction = 1 ∨ riskScore ≥ 60 then heartUrgentRecs
  else if riskScore ≥ 35 then heartModerateRecs
  else heartLowRecs

/-- `HeartDiseaseModel.predict`.  Note: unlike the other four models,
the source has no empty-training-set guard here. -/
def heartPredict (trainingData : List TrainRecord) (features : List ℚ) : PredictionOut :=
  let normalizedFeatures := heartNormalizeFeatures features
  let knnResult := knnPredict
    (trainingData.map fun d => ⟨heartNormalizeFeatures d.features, d.label⟩)
    normalizedFeatures 7
  let riskScore := heartCalculateRiskScore features
  { disease := "Heart Disease"
    prediction := if knnResult.prediction = 1 then "Positive" else "Negative"
    hasDiseaseRisk := knnResult.prediction == 1
    confidence := knnResult.confidence
    riskScore := jsRound riskScore
    riskLevel := heartGetRiskLevel riskScore
    riskFactors := heartRiskFactors features
    recommendations := heartGetRecommendations knnResult.prediction riskScore }

/-! ## DiabetesModel (src/unnamed/part_001)
Feature order: pregnancies, glucose, bloodPressure, skinThickness,
insulin, bmi, diabetesPedigreeFunction, age. -/

def diabetesRanges : List (ℚ × ℚ) :=
  [(0, 17), (0, 199), (0, 122), (0, 99), (0, 846), (0, 67.1),
   (0.078, 2.42), (21, 81)]

def diabetesNormalizeFeatures (features : List ℚ) : List ℚ :=
  normalizeWith diabetesRanges features

/-- `DiabetesModel.calculateRiskScore`. -/
def diabetesCalculateRiskScore (features : List ℚ) : ℚ :=
  let glucose := features.getD 1 0
  let bloodPressure := features.getD 2 0
  let insulin := features.getD 4 0
  let bmi := features.getD 5 0
  let pedigree := features.getD 6 0
  let age := features.getD 7 0
  let score :=
    (if glucose ≥ 140 then (35 : ℚ) else if glucose ≥ 100 then 20 else if glucose ≥ 70 then 5 else 0)
    + (if bmi ≥ 30 then (20 : ℚ) else if bmi ≥ 25 then 10 else 0)
    + (if age > 45 then (10 : ℚ) else if age > 35 then 5 else 0)
    + (if bloodPressure > 80 then (10 : ℚ) else if bloodPressure > 70 then 5 else 0)
    + (if insulin > 200 ∨ (insulin > 0 ∧ insulin < 50) then (10 : ℚ) else 0)
    + (if pedigree > 0.5 then (15 : ℚ) else 0)
  min score 100

def diabetesGetRiskLevel (score : ℚ) : String :=
  if score ≥ 60 then "High" else if score ≥ 30 then "Moderate" else "Low"

/-- The `riskFactors` list built by `DiabetesModel.getAnalysis`. -/
def diabetesRiskFactors (features : List ℚ) : List String :=
  (if features.getD 1 0 > 126 then ["High fasting glucose level"] else [])
  ++ (if features.getD 5 0 > 30 then ["Obesity (BMI > 30)"] else [])
  ++ (if features.getD 7 0 > 45 then ["Age over 45"] else [])
  ++ (if features.getD 2 0 > 80 then ["Elevated blood pressure"] else [])
  ++ (if features.getD 6 0 > 0.5 then ["Strong family history of diabetes"] else [])
  ++ (if features.getD 0 0 > 5 then ["Multiple pregnancies"] else [])

def diabetesUrgentRecs : List String :=
  ["ðŸš¨ URGENT: Consult an endocrinologist immediately",
   "Get HbA1c test done",
   "Monitor blood glucose levels daily",
   "Follow a strict diabetic diet plan",
   "Start a supervised exercise program",
   "Weight loss if overweight (target BMI < 25)",
   "Regular eye and foot examinations",
   "Check blood pressure regularly",
   "Take prescribed medications strictly",
   "Carry diabetic emergency card"]

def diabetesModerateRecs : List String :=
  ["Consult a doctor for glucose tolerance test",
   "Adopt a low-sugar, balanced diet",
   "Exercise 30 minutes daily, 5 days/week",
   "Lose weight if overweight",
   "Monitor blood sugar monthly",
   "Reduce stress levels",
   "Avoid sugary drinks and processed foods",
   "Regular health checkups",
   "Stay hydrated"]

def diabetesLowRecs : List String :=
  ["Maintain healthy lifestyle",
   "Continue balanced diet",
   "Regular exercise",
   "Annual health checkups",
   "Monitor weight",
   "Stay active"]

/-- `DiabetesModel.getRecommendations(prediction, riskScore)`. -/
def diabetesGetRecommendations (prediction : Nat) (riskScore : ℚ) : List String :=
  if prediction = 1 ∨ riskScore ≥ 60 then diabetesUrgentRecs
  else if riskScore ≥ 30 then diabetesModerateRecs
  else diabetesLowRecs

/-- The `Insufficient Data` sentinel returned by `DiabetesModel.predict`. -/
def diabetesInsufficient : PredictionOut :=
  { disease := "Type 2 Diabetes"
    prediction := "Insufficient Data"
    hasDiseaseRisk := false
    confidence := 0
    riskScore := 0
    riskLevel := "Unknown"
    riskFactors := ["No training data available"]
    recommendations :=
      ["The system needs training data to make predictions.",
       "Please ensure the diabetes.csv file contains valid data.",
       "Consult a healthcare professional for proper diagnosis."] }

/-- `DiabetesModel.predict` (k = 9). -/
def diabetesPredict (trainingData : List TrainRecord) (features : List ℚ) : PredictionOut :=
  if trainingData = [] then diabetesInsufficient
  else
    let normalizedFeatures := diabetesNormalizeFeatures features
    let knnResult := knnPredict
      (trainingData.map fun d => ⟨diabetesNormalizeFeatures d.features, d.label⟩)
      normalizedFeatures 9
    let riskScore := diabetesCalculateRiskScore features
    { disease := "Type 2 Diabetes"
      prediction := if knnResult.prediction = 1 then "Positive" else "Negative"
      hasDiseaseRisk := knnResult.prediction == 1
      confidence := knnResult.confidence
      riskScore := jsRound riskScore
      riskLevel := diabetesGetRiskLevel riskScore
      riskFactors := diabetesRiskFactors features
      recommendations := diabetesGetRecommendations knnResult.prediction riskScore }

/-! ## KidneyDiseaseModel (src/backend/models/kidneyDiseaseModel.js)
Feature order: age, bp, sg, al, su, rbc, bgr, bu, sc, hemo, wbcc, htn, dm. -/

def kidneyRanges : List (ℚ × ℚ) :=
  [(2, 90), (50, 180), (1.005, 1.025), (0, 5), (0, 5), (0, 1), (22, 490),
   (1.5, 391), (0.4, 76), (3.1, 17.8), (2200, 26400), (0, 1), (0, 1)]

def kidneyNormalizeFeatures (features : List ℚ) : List ℚ :=
  normalizeWith kidneyRanges features

/-- `KidneyDiseaseModel.calculateRiskScore`. -/
def kidneyCalculateRiskScore (features : List ℚ) : ℚ :=
  let age := features.getD 0 0
  let al := features.getD 3 0
  let bu := features.getD 7 0
  let sc := features.getD 8 0
  let hemo := features.getD 9 0
  let htn := features.getD 11 0
  let dm := features.getD 12 0
  let score :=
    (if bu > 40 then (20 : ℚ) else if bu > 20 then 10 else 0)
    + (if sc > 1.4 then (25 : ℚ) else if sc > 1.0 then 12 else 0)
    + (if hemo < 10 then (15 : ℚ) else if hemo < 12 then 8 else 0)
    + (if al > 2 then (15 : ℚ) else if al > 0 then 8 else 0)
    + (if htn = 1 then (10 : ℚ) else 0)
    + (if dm = 1 then (10 : ℚ) else 0)
    + (if age > 60 then (10 : ℚ) else 0)
  min score 100

def kidneyGetRiskLevel (score : ℚ) : String :=
  if score ≥ 60 then "High" else if score ≥ 35 then "Moderate" else "Low"

/-- The `riskFactors` list built by `KidneyDiseaseModel.getAnalysis`. -/
def kidneyRiskFactors (features : List ℚ) : List String :=
  (if features.getD 7 0 > 40 then ["Elevated blood urea"] else [])
  ++ (if features.getD 8 0 > 1.4 then ["High serum creatinine"] else [])
  ++ (if features.getD 9 0 < 10 then ["Low hemoglobin (anemia)"] else [])
  ++ (if features.getD 3 0 > 2 then ["High albumin in urine"] else [])
  ++ (if features.getD 11 0 = 1 then ["Hypertension present"] else [])
  ++ (if features.getD 12 0 = 1 then ["Diabetes mellitus present"] else [])

def kidneyUrgentRecs : List String :=
  ["🚨 URGENT: Consult a nephrologist immediately",
   "Get comprehensive kidney function tests",
   "Monitor blood pressure strictly",
   "Control blood sugar if diabetic",
   "Reduce protein intake as advised",
   "Limit salt consumption",
   "Stay well hydrated",
   "Avoid NSAIDs and nephrotoxic drugs",
   "Regular dialysis may be needed",
   "Consider kidney transplant evaluation"]

def kidneyModerateRecs : List String :=
  ["Consult a nephrologist for evaluation",
   "Regular kidney function monitoring",
   "Control blood pressure",
   "Manage diabetes if present",
   "Healthy diet low in protein and salt",
   "Stay hydrated",
   "Avoid nephrotoxic medications",
   "Regular checkups"]

def kidneyLowRecs : List String :=
  ["Maintain healthy lifestyle",
   "Regular health checkups",
   "Stay hydrated",
   "Balanced diet",
   "Control blood pressure",
   "Regular exercise"]

/-- `KidneyDiseaseModel.getRecommendations(prediction, riskScore)`. -/
def kidneyGetRecommendations (prediction : Nat) (riskScore : ℚ) : List String :=
  if prediction = 1 ∨ riskScore ≥ 60 then kidneyUrgentRecs
  else if riskScore ≥ 35 then kidneyModerateRecs
  else kidneyLowRecs

/-- The `Insufficient Data` sentinel returned by `KidneyDiseaseModel.predict`. -/
def kidneyInsufficient : PredictionOut :=
  { disease := "Chronic Kidney Disease (CKD)"
    prediction := "Insufficient Data"
    hasDiseaseRisk := false
    confidence := 0
    riskScore := 0
    riskLevel := "Unknown"
    riskFactors := ["No training data available"]
    recommendations :=
      ["The system needs training data to make predictions.",
       "Please ensure the kidney_disease.csv file contains valid data.",
       "Consult a healthcare professional for proper diagnosis."] }

/-- `KidneyDiseaseModel.predict` (k = 7). -/
def kidneyPredict (trainingData : List TrainRecord) (features : List ℚ) : PredictionOut :=
  if trainingData = [] then kidneyInsufficient
  else
    let normalizedFeatures := kidneyNormalizeFeatures features
    let knnResult := knnPredict
      (trainingData.map fun d => ⟨kidneyNormalizeFeatures d.features, d.label⟩)
      normalizedFeatures 7
    let riskScore := kidneyCalculateRiskScore features
    { disease := "Chronic Kidney Disease (CKD)"
      prediction := if knnResult.prediction = 1 then "Positive" else "Negative"
      hasDiseaseRisk := knnResult.prediction == 1
      confidence := knnResult.confidence
      riskScore := jsRound riskScore
      riskLevel := kidneyGetRiskLevel riskScore
      riskFactors := kidneyRiskFactors features
      recommendations := kidneyGetRecommendations knnResult.prediction riskScore }

/-! ## BreastCancerModel (src/unnamed/part_002)
Feature order: radius, texture, perimeter, area, smoothness,
compactness, concavity, concave points, symmetry, fractal dimension. -/

def breastRanges : List (ℚ × ℚ) :=
  [(6.981, 28.11), (9.71, 39.28), (43.79, 188.5), (143.5, 2501),
   (0.05263, 0.1634), (0.01938, 0.3454), (0, 0.4268), (0, 0.2012),
   (0.106, 0.304), (0.04996, 0.09744)]

def breastNormalizeFeatures (features : List ℚ) : List ℚ :=
  normalizeWith breastRanges features

/-- `BreastCancerModel.calculateRiskScore`. -/
def breastCalculateRiskScore (features : List ℚ) : ℚ :=
  let radius := features.getD 0 0
  let perimeter := features.getD 2 0
  let area := features.getD 3 0
  let compactness := features.getD 5 0
  let concavity := features.getD 6 0
  let concavePoints := features.getD 7 0
  let score :=
    (if radius > 17 then (20 : ℚ) else if radius > 14 then 10 else 0)
    + (if perimeter > 100 then (15 : ℚ) else if perimeter > 80 then 8 else 0)
    + (if area > 800 then (15 : ℚ) else if area > 500 then 8 else 0)
    + (if compactness > 0.15 then (12 : ℚ) else if compactness > 0.1 then 6 else 0)
    + (if concavity > 0.2 then (15 : ℚ) else if concavity > 0.1 then 8 else 0)
    + (if concavePoints > 0.1 then (15 : ℚ) else if concavePoints > 0.05 then 8 else 0)
  min score 100

def breastGetRiskLevel (score : ℚ) : String :=
  if score ≥ 60 then "High" else if score ≥ 35 then "Moderate" else "Low"

/-- The `riskFactors` list built by `BreastCancerModel.getAnalysis`. -/
def breastRiskFactors (features : List ℚ) : List String :=
  (if features.getD 0 0 > 17 then ["Large tumor radius"] else [])
  ++ (if features.getD 2 0 > 100 then ["Large tumor perimeter"] else [])
  ++ (if features.getD 3 0 > 800 then ["Large tumor area"] else [])
  ++ (if features.getD 5 0 > 0.15 then ["High compactness"] else [])
  ++ (if features.getD 6 0 > 0.2 then ["High concavity"] else [])
  ++ (if features.getD 7 0 > 0.1 then ["High concave points"] else [])

def breastUrgentRecs : List String :=
  ["🚨 URGENT: Consult an oncologist immediately",
   "Get comprehensive biopsy and pathology report",
   "Discuss treatment options (surgery, chemotherapy, radiation)",
   "Consider second opinion from cancer specialist",
   "Genetic testing for BRCA mutations",
   "Join cancer support groups",
   "Discuss fertility preservation if needed",
   "Mental health support is important",
   "Follow prescribed treatment plan strictly",
   "Regular follow-up appointments critical"]

def breastModerateRecs : List String :=
  ["Consult a breast specialist for detailed evaluation",
   "Regular mammogram screening",
   "Monthly self-breast examination",
   "Follow-up imaging as recommended",
   "Maintain healthy lifestyle",
   "Limit alcohol consumption",
   "Regular exercise",
   "Healthy diet rich in fruits and vegetables"]

def breastLowRecs : List String :=
  ["Continue regular breast self-examinations",
   "Annual mammogram screening as recommended",
   "Maintain healthy weight",
   "Regular exercise",
   "Limit alcohol",
   "Healthy diet",
   "Know your family history"]

/-- `BreastCancerModel.getRecommendations(prediction, riskScore)`. -/
def breastGetRecommendations (prediction : Nat) (riskScore : ℚ) : List String :=
  if prediction = 1 ∨ riskScore ≥ 60 then breastUrgentRecs
  else if riskScore ≥ 35 then breastModerateRecs
  else breastLowRecs

/-- The `Insufficient Data` sentinel returned by `BreastCancerModel.predict`. -/
def breastInsufficient : PredictionOut :=
  { disease := "Breast Cancer"
    prediction := "Insufficient Data"
    hasDiseaseRisk := false
    confidence := 0
    riskScore := 0
    riskLevel := "Unknown"
    riskFactors := ["No training data available"]
    recommendations :=
      ["The system needs training data to make predictions.",
       "Please ensure the breast_cancer.csv file contains valid data.",
       "Consult a healthcare professional for proper diagnosis."] }

/-- `BreastCancerModel.predict` (k = 7; labels Malignant/Benign). -/
def breastPredict (trainingData : List TrainRecord) (features : List ℚ) : PredictionOut :=
  if trainingData = [] then breastInsufficient
  else
    let normalizedFeatures := breastNormalizeFeatures features
    let knnResult := knnPredict
      (trainingData.map fun d => ⟨breastNormalizeFeatures d.features, d.label⟩)
      normalizedFeatures 7
    let riskScore := breastCalculateRiskScore features
    { disease := "Breast Cancer"
      prediction := if knnResult.prediction = 1 then "Malignant" else "Benign"
      hasDiseaseRisk := knnResult.prediction == 1
      confidence := knnResult.confidence
      riskScore := jsRound riskScore
      riskLevel := breastGetRiskLevel riskScore
      riskFactors := breastRiskFactors features
      recommendations := breastGetRecommendations knnResult.prediction riskScore }

/-! ## LiverDiseaseModel (src/backend/models/heartDiseaseModel.js, second class)
Feature order: age, gender, total bilirubin, direct bilirubin, alkaline
phosphatase, ALT, AST, total proteins, albumin, A/G ratio. -/

def liverRanges : List (ℚ × ℚ) :=
  [(4, 90), (0, 1), (0.4, 75), (0.1, 19.7), (63, 2110), (10, 2000),
   (10, 4929), (2.7, 9.6), (0.9, 5.5), (0.3, 2.8)]

def liverNormalizeFeatures (features : List ℚ) : List ℚ :=
  normalizeWith liverRanges features

/-- `LiverDiseaseModel.calculateRiskScore`. -/
def liverCalculateRiskScore (features : List ℚ) : ℚ :=
  let age := features.getD 0 0
  let totalBilirubin := features.getD 2 0
  let directBilirubin := features.getD 3 0
  let alkalinePhosphatase := features.getD 4 0
  let alt := features.getD 5 0
  let ast := features.getD 6 0
  let totalProteins := features.getD 7 0
  let albumin := features.getD 8 0
  let agRatio := features.getD 9 0
  let score :=
    (if totalBilirubin > 2 then (20 : ℚ) else if totalBilirubin > 1.2 then 10 else 0)
    + (if directBilirubin > 0.8 then (15 : ℚ) else 0)
    + (if alkalinePhosphatase > 300 then (15 : ℚ) else if alkalinePhosphatase > 200 then 8 else 0)
    + (if alt > 100 then (15 : ℚ) else if alt > 50 then 8 else 0)
    + (if ast > 100 then (15 : ℚ) else if ast > 50 then 8 else 0)
    + (if totalProteins < 6 ∨ totalProteins > 8.3 then (10 : ℚ) else 0)
    + (if albumin < 3.5 then (10 : ℚ) else 0)
    + (if agRatio < 1.0 then (10 : ℚ) else 0)
    + (if age > 60 then (5 : ℚ) else 0)
  min score 100

def liverGetRiskLevel (score : ℚ) : String :=
  if score ≥ 60 then "High" else if score ≥ 35 then "Moderate" else "Low"

/-- The `riskFactors` list built by `LiverDiseaseModel.getAnalysis`. -/
def liverRiskFactors (features : List ℚ) : List String :=
  (if features.getD 2 0 > 2 then ["Elevated total bilirubin (jaundice)"] else [])
  ++ (if features.getD 3 0 > 0.8 then ["High direct bilirubin"] else [])
  ++ (if features.getD 4 0 > 300 then ["Elevated alkaline phosphatase"] else [])
  ++ (if features.getD 5 0 > 100 then ["High ALT levels (liver damage)"] else [])
  ++ (if features.getD 6 0 > 100 then ["High AST levels (liver damage)"] else [])
  ++ (if features.getD 7 0 < 6 then ["Low total proteins"] else [])
  ++ (if features.getD 8 0 < 3.5 then ["Low albumin (poor liver function)"] else [])
  ++ (if features.getD 9 0 < 1.0 then ["Low A/G ratio"] else [])

def liverUrgentRecs : List String :=
  ["ðŸš¨ URGENT: Consult a hepatologist immediately",
   "Get comprehensive liver function tests",
   "Ultrasound or CT scan of liver may be needed",
   "Avoid alcohol completely",
   "Stop hepatotoxic medications",
   "Rest and proper nutrition",
   "Monitor for jaundice, abdominal swelling",
   "Possible hospitalization may be required",
   "Vaccination for hepatitis A and B",
   "Regular liver monitoring"]

def liverModerateRecs : List String :=
  ["Consult a gastroenterologist for evaluation",
   "Get liver function tests",
   "Avoid alcohol",
   "Healthy diet rich in fruits and vegetables",
   "Maintain healthy weight",
   "Regular exercise",
   "Avoid unnecessary medications",
   "Follow-up tests in 3-6 months"]

def liverLowRecs : List String :=
  ["Maintain healthy lifestyle",
   "Limit alcohol consumption",
   "Healthy balanced diet",
   "Regular exercise",
   "Annual health checkups",
   "Avoid hepatotoxic substances"]

/-- `LiverDiseaseModel.getRecommendations(prediction, riskScore)`. -/
def liverGetRecommendations (prediction : Nat) (riskScore : ℚ) : List String :=
  if prediction = 1 ∨ riskScore ≥ 60 then liverUrgentRecs
  else if riskScore ≥ 35 then liverModerateRecs
  else liverLowRecs

/-- The `Insufficient Data` sentinel returned by `LiverDiseaseModel.predict`. -/
def liverInsufficient : PredictionOut :=
  { disease := "Liver Disease"
    prediction := "Insufficient Data"
    hasDiseaseRisk := false
    confidence := 0
    riskScore := 0
    riskLevel := "Unknown"
    riskFactors := ["No training data available"]
    recommendations :=
      ["The system needs training data to make predictions.",
       "Please ensure the liver.csv file contains valid data.",
       "Consult a healthcare professional for proper diagnosis."] }

/-- `LiverDiseaseModel.predict` (k = 7). -/
def liverPredict (trainingData : List TrainRecord) (features : List ℚ) : PredictionOut :=
  if trainingData = [] then liverInsufficient
  else
    let normalizedFeatures := liverNormalizeFeatures features
    let knnResult := knnPredict
      (trainingData.map fun d => ⟨liverNormalizeFeatures d.features, d.label⟩)
      normalizedFeatures 7
    let riskScore := liverCalculateRiskScore features
    { disease := "Liver Disease"
      prediction := if knnResult.prediction = 1 then "Positive" else "Negative"
      hasDiseaseRisk := knnResult.prediction == 1
      confidence := knnResult.confidence
      riskScore := jsRound riskScore
      riskLevel := liverGetRiskLevel riskScore
      riskFactors := liverRiskFactors features
      recommendations := liverGetRecommendations knnResult.prediction riskScore }

/-! ## Training ingestion (the `processData` filter stage)
Each model maps raw CSV rows through `parseFloat` and then filters with
`!item.features.some(isNaN)`.  JS numbers there can be finite, `NaN`, or
`±Infinity` (`parseFloat("Infinity")` is `Infinity`); we model that value
space explicitly.  Only the post-parse filter is embedded: the map from
named CSV columns to the fixed-order vector is mechanical extraction. -/

inductive JSNum where
  | num (q : ℚ)
  | nan
  | inf
  | negInf
deriving DecidableEq

/-- JS `isNaN` on a parsed number: true only for `NaN`. -/
def jsIsNaN : JSNum → Bool
  | .nan => true
  | _ => false

/-- A JS number is finite when it is neither `NaN` nor `±Infinity`. -/
def jsFinite : JSNum → Bool
  | .num _ => true
  | _ => false

structure RawRecord where
  features : List JSNum
  label : ℤ
deriving DecidableEq

/-- The `.filter(item => !item.features.some(isNaN))` stage of
`processData`, shared verbatim by the five models. -/
def processData (rawData : List RawRecord) : List RawRecord :=
  rawData.filter fun item => !(item.features.any jsIsNaN)

/-! ## AdvancedSymptomPredictor (src/backend/utils/advancedML.js) -/

/-- A high-risk age band (`disease.ageRisk.high = {min, max}`). -/
structure AgeBand where
  lo : ℚ
  hi : ℚ
deriving DecidableEq

structure Disease where
  name : String
  symptoms : List String
  severity : String
  description : String
  specialization : String
  recommendations : List String
  ageRiskHigh : Option AgeBand := none
  genderRiskMale : Option ℚ := none
  genderRiskFemale : Option ℚ := none
deriving DecidableEq

/-- Optional demographics of a symptom query.  JS reads
`patientData.age` / `patientData.gender` with truthiness checks, so an
absent field is `none` (an age of 0, always falsy in JS, is out of scope
for a patient age). -/
structure PatientInfo where
  age : Option ℚ
  gender : Option String
deriving DecidableEq

/-- `AdvancedSymptomPredictor.calculateUrgency(disease, matchedCount)`. -/
def calculateUrgency (disease : Disease) (matchedCount : Nat) : String :=
  if disease.severity = "serious" ∧ matchedCount ≥ 3 then "emergency"
  else if disease.severity = "serious" ∨ matchedCount ≥ 4 then "urgent"
  else if disease.severity = "moderate" then "soon"
  else "routine"

/-- Modelled from the spec's urgency table (§4.5), written from the
spec's words to compare against the source's `calculateUrgency`. -/
def urgencySpec (severityTier : String) (matchedCount : Nat) : String :=
  if severityTier = "serious" ∧ matchedCount ≥ 3 then "emergency"
  else if severityTier = "serious" ∨ matchedCount ≥ 4 then "urgent"
  else if severityTier = "moderate" then "soon"
  else "routine"

/-- One ranked entry of the symptom matcher's output. -/
structure SymptomPrediction where
  disease : String
  confidence : ℤ
  severity : String
  description : String
  matchedSymptoms : Nat
  totalSymptoms : Nat
  matchPercentage : ℤ
  neuralConfidence : ℤ
  recommendations : List String
  specialization : String
  urgency : String
deriving DecidableEq

/-- The body of the `for (const disease of this.diseaseDatabase)` loop in
`AdvancedSymptomPredictor.predict`: the entry pushed for `d`, or `none`
when the match percentage is zero. -/
def entryFor (selectedSymptoms : List String) (pd : PatientInfo) (d : Disease) :
    Option SymptomPrediction :=
  let matched := selectedSymptoms.filter fun s => d.symptoms.contains s
  let matchPercentage : ℚ := (matched.length : ℚ) / (d.symptoms.length : ℚ) * 100
  if matchPercentage > 0 then
    let confidence := matchPercentage
    let confidence :=
      match pd.age, d.ageRiskHigh with
      | some a, some band => if band.lo ≤ a ∧ a ≤ band.hi then confidence * 1.2 else confidence
      | _, _ => confidence
    let confidence :=
      match pd.gender with
      | some g =>
        (match (if g = "male" then d.genderRiskMale
                else if g = "female" then d.genderRiskFemale else none) with
         | some m => confidence * m
         | none => confidence)
      | none => confidence
    some
      { disease := d.name
        confidence := min (jsRound confidence) 100
        severity := d.severity
        description := d.description
        matchedSymptoms := matched.length
        totalSymptoms := d.symptoms.length
        matchPercentage := jsRound matchPercentage
        neuralConfidence := min (jsRound confidence) 100
        recommendations := d.recommendations
        specialization := d.specialization
        urgency := calculateUrgency d matched.length }
  else none

/-! ### The static disease knowledge base (`loadDiseaseDatabase`). -/

def heartAttackDisease : Disease :=
  { name := "Acute Myocardial Infarction (Heart Attack)"
    symptoms := ["chest_pain", "shortness_of_breath", "cold_sweat", "nausea",
                 "lightheadedness", "pain_radiating_arm", "jaw_pain", "extreme_fatigue"]
    severity := "serious"
    description := "Life-threatening condition where blood flow to heart muscle is blocked"
    specialization := "Emergency Cardiology"
    recommendations :=
      ["🚨 CALL 911 IMMEDIATELY - This is a medical emergency",
       "Chew aspirin if available and not allergic",
       "Stay calm and sit down",
       "Do NOT drive yourself to hospital"]
    ageRiskHigh := some ⟨45, 100⟩ }

def type2DiabetesDisease : Disease :=
  { name := "Type 2 Diabetes Mellitus"
    symptoms := ["increased_thirst", "frequent_urination", "increased_hunger", "fatigue",
                 "blurred_vision", "slow_healing", "tingling_hands", "unexplained_weight_loss"]
    severity := "serious"
    description := "Chronic metabolic disorder affecting blood sugar regulation"
    specialization := "Endocrinology"
    recommendations :=
      ["Consult endocrinologist within 1 week",
       "Get HbA1c and fasting glucose tests",
       "Monitor blood glucose levels",
       "Follow diabetic diet plan"]
    ageRiskHigh := some ⟨45, 100⟩ }

def ckdDisease : Disease :=
  { name := "Chronic Kidney Disease"
    symptoms := ["fatigue", "decreased_urine", "swollen_ankles", "nausea", "loss_of_appetite",
                 "muscle_cramps", "difficulty_concentrating", "sleep_problems"]
    severity := "serious"
    description := "Progressive loss of kidney function over time"
    specialization := "Nephrology"
    recommendations :=
      ["Urgent nephrologist consultation",
       "Complete kidney function tests",
       "Monitor blood pressure daily",
       "Low-protein, low-sodium diet"] }

def pneumoniaDisease : Disease :=
  { name := "Pneumonia"
    symptoms := ["high_fever", "cough_with_phlegm", "chest_pain", "shortness_of_breath",
                 "chills", "rapid_breathing", "fatigue", "nausea"]
    severity := "serious"
    description := "Infection causing inflammation in lung air sacs"
    specialization := "Pulmonology"
    recommendations :=
      ["Seek medical attention within 24 hours",
       "Chest X-ray required",
       "May need antibiotics",
       "Rest and hydration"] }

def migraineDisease : Disease :=
  { name := "Migraine"
    symptoms := ["severe_headache", "nausea", "vomiting", "light_sensitivity",
                 "sound_sensitivity", "vision_problems", "aura", "dizziness"]
    severity := "moderate"
    description := "Neurological condition causing intense headaches"
    specialization := "Neurology"
    recommendations :=
      ["Rest in dark, quiet room",
       "Apply cold compress",
       "Take prescribed migraine medication",
       "Identify triggers"]
    genderRiskMale := some 0.8
    genderRiskFemale := some 1.3 }

def asthmaDisease : Disease :=
  { name := "Asthma"
    symptoms := ["shortness_of_breath", "chest_tightness", "wheezing", "dry_cough",
                 "difficulty_sleeping", "rapid_breathing"]
    severity := "serious"
    description := "Chronic inflammatory airway disease"
    specialization := "Pulmonology"
    recommendations :=
      ["Use rescue inhaler immediately",
       "Avoid triggers",
       "See pulmonologist",
       "Get asthma action plan"] }

def gerdDisease : Disease :=
  { name := "Gastroesophageal Reflux Disease (GERD)"
    symptoms := ["heartburn", "acid_regurgitation", "chest_pain", "difficulty_swallowing",
                 "chronic_cough", "sore_throat", "hoarse_voice"]
    severity := "moderate"
    description := "Chronic acid reflux from stomach into esophagus"
    specialization := "Gastroenterology"
    recommendations :=
      ["Avoid trigger foods",
       "Eat smaller meals",
       "Don\x27t lie down after eating",
       "Elevate head of bed"] }

def utiDisease : Disease :=
  { name := "Urinary Tract Infection (UTI)"
    symptoms := ["frequent_urination", "burning_urination", "cloudy_urine", "pelvic_pain",
                 "strong_urine_odor", "blood_in_urine"]
    severity := "moderate"
    description := "Bacterial infection in urinary system"
    specialization := "Urology"
    recommendations :=
      ["See doctor for antibiotics",
       "Drink plenty of water",
       "Urinate frequently",
       "Complete full antibiotic course"] }

def hypertensionDisease : Disease :=
  { name := "Hypertension (High Blood Pressure)"
    symptoms := ["headache", "shortness_of_breath", "nosebleeds", "dizziness",
                 "chest_pain", "vision_problems"]
    severity := "serious"
    description := "Chronically elevated blood pressure"
    specialization := "Cardiology"
    recommendations :=
      ["Monitor blood pressure daily",
       "Low-sodium diet",
       "Regular exercise",
       "Take medications as prescribed"] }

def depressionDisease : Disease :=
  { name := "Depression (Major Depressive Disorder)"
    symptoms := ["persistent_sadness", "loss_of_interest", "fatigue", "sleep_problems",
                 "appetite_changes", "difficulty_concentrating", "feelings_of_worthlessness"]
    severity := "serious"
    description := "Mental health disorder affecting mood and daily functioning"
    specialization := "Psychiatry"
    recommendations :=
      ["Seek mental health professional immediately",
       "Consider therapy/counseling",
       "Medication may help",
       "Build support network"] }

def influenzaDisease : Disease :=
  { name := "Influenza (Flu)"
    symptoms := ["high_fever", "body_aches", "chills", "dry_cough", "sore_throat",
                 "nasal_congestion", "headache", "extreme_fatigue"]
    severity := "moderate"
    description := "Viral respiratory infection"
    specialization := "General Medicine"
    recommendations :=
      ["Rest and fluids",
       "Antiviral medication within 48 hours",
       "Fever reducers",
       "Stay home to avoid spreading"] }

def diseaseDatabase : List Disease :=
  [heartAttackDisease, type2DiabetesDisease, ckdDisease, pneumoniaDisease,
   migraineDisease, asthmaDisease, gerdDisease, utiDisease,
   hypertensionDisease, depressionDisease, influenzaDisease]

/-- Descending comparison on confidence, the order produced by the
comparator `(a, b) => b.confidence - a.confidence`. -/
def confGE (a b : SymptomPrediction) : Prop := b.confidence ≤ a.confidence

instance : DecidableRel confGE := fun a b => inferInstanceAs (Decidable (b.confidence ≤ a.confidence))
instance : IsTotal SymptomPrediction confGE := ⟨fun a b => le_total b.confidence a.confidence⟩
instance : IsTrans SymptomPrediction confGE := ⟨fun _ _ _ h h' => le_trans h' h⟩

/-- All entries produced by the matcher loop (`predictions` before
sorting and truncation). -/
def predictAll (selectedSymptoms : List String) (pd : PatientInfo) :
    List SymptomPrediction :=
  diseaseDatabase.filterMap (entryFor selectedSymptoms pd)

/-- `AdvancedSymptomPredictor.predict`: sort descending by confidence and
return the top five (`predictions.slice(0, 5)`). -/
def predictTop (selectedSymptoms : List String) (pd : PatientInfo) :
    List SymptomPrediction :=
  ((predictAll selectedSymptoms pd).insertionSort confGE).take 5

/-- A symptom query with no demographics supplied. -/
def nobody : PatientInfo := ⟨none, none⟩

/-! ## Helper lemmas -/

lemma le_jsRound (n : ℤ) (q : ℚ) (h : (n : ℚ) ≤ q) : n ≤ jsRound q :=
  Int.le_floor.mpr (by linarith)

lemma jsRound_le (n : ℤ) (q : ℚ) (h : q ≤ (n : ℚ)) : jsRound q ≤ n := by
  have h1 : (jsRound q : ℚ) ≤ q + 1/2 := Int.floor_le _
  have h2 : ((jsRound q : ℤ) : ℚ) < ((n : ℤ) : ℚ) + 1 := by linarith
  have h3 : (jsRound q : ℤ) < n + 1 := by exact_mod_cast h2
  omega

lemma votes_add_le (nb : List (ℚ × Nat)) : votes0 nb + votes1 nb ≤ nb.length := by
  induction nb with
  | nil => simp [votes0, votes1]
  | cons a t ih =>
    unfold votes0 votes1 at *
    rw [List.filter_cons, List.filter_cons]
    by_cases h0 : a.2 = 0
    · simp only [h0, List.length_cons]
      norm_num
      omega
    · by_cases h1 : a.2 = 1
      · simp only [h0, h1, List.length_cons]
        norm_num
        omega
      · simp only [List.length_cons]
        have e0 : (a.2 == 0) = false := by simpa using h0
        have e1 : (a.2 == 1) = false := by simpa using h1
        rw [e0, e1]
        simpa using Nat.le_succ_of_le ih

lemma votes_sum_eq (T : List TrainRecord) (q : List ℚ) (k : Nat)
    (hbin : ∀ r ∈ T, r.label = 0 ∨ r.label = 1) :
    votes0 (knnNeighbors T q k) + votes1 (knnNeighbors T q k) = min k T.length := by
  rw [votes_sum _ (mem_knnNeighbors_label T q k hbin), knnNeighbors_length]

lemma getD_nonneg (l : List ℚ) (h : ∀ x ∈ l, 0 ≤ x) (i : Nat) : 0 ≤ l.getD i 0 := by
  induction l generalizing i with
  | nil => simp [List.getD]
  | cons a t ih =>
    cases i with
    | zero => simpa using h a (List.mem_cons_self a t)
    | succ j => simpa using ih (fun x hx => h x (List.mem_cons_of_mem a hx)) j

/-- The k = 7 example of the spec: five of the seven nearest training
points carry label 1, two carry label 0. -/
def knnExample : List TrainRecord :=
  [⟨[1], 1⟩, ⟨[2], 1⟩, ⟨[3], 1⟩, ⟨[4], 1⟩, ⟨[5], 1⟩, ⟨[6], 0⟩, ⟨[7], 0⟩]

/-! ## Claims C6 and C10: the KNN classifier contract -/

/-- C6: `knnPredict` satisfies its input/output contract.  (1) An empty
training set yields `{prediction: 0, confidence: 50, neighbors: 0}`.
(2) For a non-empty training set the reported neighbor count is `k`
clamped to the training-set size.  (3) The selected neighbors are the
nearest by (squared, hence also plain) Euclidean distance: each selected
entry's distance is at most that of every unselected entry.  (4) The
returned label is the majority label of the neighbors whenever a strict
majority exists, and the confidence is `round(winningVotes / k * 100)`
with `k` clamped.  (5) With `k = 7` and five of seven nearest neighbors
labeled 1, the result is prediction 1 with confidence 71. -/
theorem knnPredict_contract :
    (∀ q k, knnPredict [] q k = ⟨0, 50, 0⟩) ∧
    (∀ T q k, T ≠ [] → (knnPredict T q k).neighbors = min k T.length) ∧
    (∀ T q k, T ≠ [] → ∀ a ∈ knnNeighbors T q k,
      ∀ b ∈ (knnSorted T q).drop (min k T.length), a.1 ≤ b.1) ∧
    (∀ T q k, T ≠ [] →
      (2 * votes1 (knnNeighbors T q k) > min k T.length →
        (knnPredict T q k).prediction = 1) ∧
      (2 * votes0 (knnNeighbors T q k) > min k T.length →
        (knnPredict T q k).prediction = 0) ∧
      (knnPredict T q k).confidence =
        jsRound ((max (votes0 (knnNeighbors T q k)) (votes1 (knnNeighbors T q k)) : ℚ)
          / (min k T.length : ℚ) * 100)) ∧
    knnPredict knnExample [0] 7 = ⟨1, 71, 7⟩ := by
  refine ⟨fun q k => rfl, ?_, ?_, ?_, ?_⟩
  · intro T q k hT
    simp only [knnPredict, if_neg hT]
    exact knnNeighbors_length T q k
  · intro T q k hT a ha b hb
    unfold knnNeighbors at ha
    exact (List.sorted_insertionSort distLE _).rel_of_mem_take_of_mem_drop ha hb
  · intro T q k hT
    have hle := votes_add_le (knnNeighbors T q k)
    have hlen := knnNeighbors_length T q k
    refine ⟨?_, ?_, ?_⟩
    · intro h2
      simp only [knnPredict, if_neg hT]
      rw [if_neg]
      omega
    · intro h2
      simp only [knnPredict, if_neg hT]
      rw [if_pos]
      omega
    · simp only [knnPredict, if_neg hT]
      have hmax : (if votes0 (knnNeighbors T q k) > votes1 (knnNeighbors T q k)
          then votes0 (knnNeighbors T q k) else votes1 (knnNeighbors T q k)) =
          max (votes0 (knnNeighbors T q k)) (votes1 (knnNeighbors T q k)) := by
        rcases Nat.lt_or_ge (votes1 (knnNeighbors T q k)) (votes0 (knnNeighbors T q k)) with h | h
        · rw [if_pos h]
          omega
        · rw [if_neg (by omega)]
          omega
      rw [hmax]
      push_cast
      ring_nf
  · norm_num [knnPredict, knnExample, knnNeighbors, knnSorted, knnDistances,
      euclideanDistanceSq, List.insertionSort, List.orderedInsert, distLE,
      votes0, votes1, jsRound, List.filter_cons, Int.floor_eq_iff, List.cons_ne_nil]

/-- C6 witness: the hypothesis-bearing parts of the contract applied at a
concrete training set. -/
theorem knnPredict_contract_witness :
    (knnPredict knnExample [0] 9).neighbors = min 9 knnExample.length ∧
    (knnPredict knnExample [0] 9).confidence =
      jsRound ((max (votes0 (knnNeighbors knnExample [0] 9))
        (votes1 (knnNeighbors knnExample [0] 9)) : ℚ)
          / (min 9 knnExample.length : ℚ) * 100) :=
  ⟨knnPredict_contract.2.1 knnExample [0] 9 (by simp [knnExample]),
   (knnPredict_contract.2.2.2.1 knnExample [0] 9 (by simp [knnExample])).2.2⟩

/-- C10: for a non-empty training set with binary labels and `k ≥ 1`,
the confidence is an integer between 50 and 100 (the winning side holds
at least half of the clamped `k` votes) and the reported neighbor count
is `min k |T|`. -/
theorem knnPredict_confidence_invariant (T : List TrainRecord) (q : List ℚ) (k : Nat)
    (hT : T ≠ []) (hk : 1 ≤ k) (hbin : ∀ r ∈ T, r.label = 0 ∨ r.label = 1) :
    50 ≤ (knnPredict T q k).confidence ∧ (knnPredict T q k).confidence ≤ 100 ∧
    (knnPredict T q k).neighbors = min k T.length := by
  have hlen := knnNeighbors_length T q k
  have hsum := votes_sum_eq T q k hbin
  have hkpos : 1 ≤ min k T.length := by
    have : 0 < T.length := List.length_pos.mpr hT
    omega
  have hkq : (0 : ℚ) < ((min k T.length : Nat) : ℚ) := by exact_mod_cast hkpos
  have hwin2 : min k T.length ≤
      2 * (if votes0 (knnNeighbors T q k) > votes1 (knnNeighbors T q k)
        then votes0 (knnNeighbors T q k) else votes1 (knnNeighbors T q k)) := by
    split_ifs <;> omega
  have hwinle : (if votes0 (knnNeighbors T q k) > votes1 (knnNeighbors T q k)
      then votes0 (knnNeighbors T q k) else votes1 (knnNeighbors T q k)) ≤
      min k T.length := by
    split_ifs <;> omega
  refine ⟨?_, ?_, ?_⟩
  · simp only [knnPredict, if_neg hT]
    apply le_jsRound
    have hcast : ((min k T.length : Nat) : ℚ) ≤
        2 * ((if votes0 (knnNeighbors T q k) > votes1 (knnNeighbors T q k)
          then votes0 (knnNeighbors T q k) else votes1 (knnNeighbors T q k) : Nat) : ℚ) := by
      exact_mod_cast hwin2
    rw [div_mul_eq_mul_div, le_div_iff₀ hkq]
    push_cast at hcast ⊢
    linarith
  · simp only [knnPredict, if_neg hT]
    apply jsRound_le
    have hcast : ((if votes0 (knnNeighbors T q k) > votes1 (knnNeighbors T q k)
        then votes0 (knnNeighbors T q k) else votes1 (knnNeighbors T q k) : Nat) : ℚ) ≤
        ((min k T.length : Nat) : ℚ) := by exact_mod_cast hwinle
    rw [div_mul_eq_mul_div, div_le_iff₀ hkq]
    push_cast at hcast ⊢
    linarith
  · simp only [knnPredict, if_neg hT]
    exact hlen

/-- C10 witness: the invariant applied at a one-record training set. -/
theorem knnPredict_confidence_invariant_witness :
    50 ≤ (knnPredict [⟨[0], 1⟩] [0] 5).confidence ∧
    (knnPredict [⟨[0], 1⟩] [0] 5).confidence ≤ 100 ∧
    (knnPredict [⟨[0], 1⟩] [0] 5).neighbors = min 5 1 :=
  knnPredict_confidence_invariant [⟨[0], 1⟩] [0] 5 (by simp)
    (by omega) (by intro r hr; simp at hr; simp [hr])

/-! ## Claim C1: recommendation tier selection -/

/-- C1 counterexample: with the same riskScore 0, a positive and a
negative classification select different recommendation tiers, so the
tier is not keyed only by riskScore. -/
theorem recommendations_depend_on_prediction :
    heartGetRecommendations 1 0 ≠ heartGetRecommendations 0 0 := by
  norm_num [heartGetRecommendations, heartUrgentRecs, heartLowRecs]

/-- Modelled from the spec's words (§4.4): a recommendation tier keyed
only by riskScore thresholds, for comparison with the source's
prediction-dependent selection. -/
def recsByScoreOnly (hi mid : ℚ) (urgent moderate low : List String)
    (riskScore : ℚ) : List String :=
  if riskScore ≥ hi then urgent else if riskScore ≥ mid then moderate else low

/-- C1 amended: recommendations come from one of three fixed tiers.  For
a negative binaryPrediction the tier is keyed only by riskScore
thresholds (60/35, and 60/30 for the metabolic model); a positive
binaryPrediction always selects the urgent tier regardless of riskScore.
So a classifier negative can still carry urgent recommendations via a
high rule score, but a positive never carries a lower tier. -/
theorem recommendations_tiers_amended :
    (∀ s : ℚ, heartGetRecommendations 0 s =
      recsByScoreOnly 60 35 heartUrgentRecs heartModerateRecs heartLowRecs s) ∧
    (∀ s : ℚ, heartGetRecommendations 1 s = heartUrgentRecs) ∧
    (∀ s : ℚ, diabetesGetRecommendations 0 s =
      recsByScoreOnly 60 30 diabetesUrgentRecs diabetesModerateRecs diabetesLowRecs s) ∧
    (∀ s : ℚ, diabetesGetRecommendations 1 s = diabetesUrgentRecs) ∧
    (∀ s : ℚ, kidneyGetRecommendations 0 s =
      recsByScoreOnly 60 35 kidneyUrgentRecs kidneyModerateRecs kidneyLowRecs s) ∧
    (∀ s : ℚ, kidneyGetRecommendations 1 s = kidneyUrgentRecs) ∧
    (∀ s : ℚ, breastGetRecommendations 0 s =
      recsByScoreOnly 60 35 breastUrgentRecs breastModerateRecs breastLowRecs s) ∧
    (∀ s : ℚ, breastGetRecommendations 1 s = breastUrgentRecs) ∧
    (∀ s : ℚ, liverGetRecommendations 0 s =
      recsByScoreOnly 60 35 liverUrgentRecs liverModerateRecs liverLowRecs s) ∧
    (∀ s : ℚ, liverGetRecommendations 1 s = liverUrgentRecs) := by
  refine ⟨?_, ?_, ?_, ?_, ?_, ?_, ?_, ?_, ?_, ?_⟩ <;> intro s <;>
    simp [heartGetRecommendations, diabetesGetRecommendations,
      kidneyGetRecommendations, breastGetRecommendations,
      liverGetRecommendations, recsByScoreOnly]

/-! ## Claim C2: empty-training-set behavior of the five models -/

/-- C2 counterexample: with an empty training set the heart model does
not return the `Insufficient Data` sentinel; it returns an ordinary
`Negative` classification (built on the KNN empty-set default of
confidence 50). -/
theorem heartPredict_empty_ordinary :
    (heartPredict [] (List.replicate 13 0)).prediction = "Negative" ∧
    (heartPredict [] (List.replicate 13 0)).prediction ≠ "Insufficient Data" ∧
    (heartPredict [] (List.replicate 13 0)).confidence = 50 := by
  have h : (heartPredict [] (List.replicate 13 0)).prediction = "Negative" := by
    norm_num [heartPredict, knnPredict]
  refine ⟨h, ?_, ?_⟩
  · rw [h]
    decide
  · norm_num [heartPredict, knnPredict]

/-- C2 amended: four of the five models (metabolic, renal, oncologic,
hepatic) return the well-formed `Insufficient Data` sentinel on an empty
training set; the cardiac model lacks the guard and instead returns an
ordinary `Negative` result with confidence 50 — still without
throwing. -/
theorem emptyTrainingSet_sentinel_amended :
    (∀ q, diabetesPredict [] q = diabetesInsufficient) ∧
    (∀ q, kidneyPredict [] q = kidneyInsufficient) ∧
    (∀ q, breastPredict [] q = breastInsufficient) ∧
    (∀ q, liverPredict [] q = liverInsufficient) ∧
    (∀ q, (heartPredict [] q).prediction = "Negative" ∧
      (heartPredict [] q).confidence = 50) := by
  refine ⟨fun q => rfl, fun q => rfl, fun q => rfl, fun q => rfl, fun q => ⟨?_, ?_⟩⟩ <;>
    simp [heartPredict, knnPredict]

/-! ## Claim C3: the metabolic end-to-end scoring example -/

/-- The spec's metabolic example query: pregnancies 0, glucose 160,
bloodPressure 85, skinThickness 0, insulin 0, bmi 32, pedigree 0.6,
age 50. -/
def diabetesSpecQuery : List ℚ := [0, 160, 85, 0, 0, 32, 0.6, 50]

/-- C3 counterexample: the spec's example yields 90, not 100 — the
insulin rule `insulin > 200 || (insulin > 0 && insulin < 50)` awards 0
points at insulin = 0, not 10. -/
theorem diabetesExample_score_not_100 :
    diabetesCalculateRiskScore diabetesSpecQuery = 90 ∧
    diabetesCalculateRiskScore diabetesSpecQuery ≠ 100 := by
  norm_num [diabetesCalculateRiskScore, diabetesSpecQuery]

/-- C3 amended: contributions 35 + 20 + 10 + 10 + 0 + 15 = 90 (insulin 0
contributes nothing), clamped 90, riskLevel `High`. -/
theorem diabetesExample_score_90_high :
    diabetesCalculateRiskScore diabetesSpecQuery = 90 ∧
    diabetesGetRiskLevel (diabetesCalculateRiskScore diabetesSpecQuery) = "High" := by
  norm_num [diabetesCalculateRiskScore, diabetesGetRiskLevel, diabetesSpecQuery]

/-! ## Claim C4: monotonicity of the risk scorers -/

/-- C4 counterexample: thalach (max heart rate) is a threshold feature
of the cardiac scorer, yet raising it from 0 to 150 lowers the score
(the rule awards 15 points only below 100). -/
theorem riskScore_not_monotone :
    heartCalculateRiskScore [0, 0, 0, 0, 0, 0, 0, 150, 0, 0, 0, 0, 0] <
    heartCalculateRiskScore [0, 0, 0, 0, 0, 0, 0, 0, 0, 0, 0, 0, 0] := by
  norm_num [heartCalculateRiskScore]

/-- C4 amended: monotonicity holds for upper-threshold features — shown
here for the metabolic scorer's glucose with every other feature fixed —
but not for features whose rules award points below a threshold (cardiac
max heart rate, renal hemoglobin) nor for the metabolic insulin band
rule. -/
theorem diabetes_glucose_monotone (p bp st ins bmi ped ag g g' : ℚ) (h : g ≤ g') :
    diabetesCalculateRiskScore [p, g, bp, st, ins, bmi, ped, ag] ≤
    diabetesCalculateRiskScore [p, g', bp, st, ins, bmi, ped, ag] := by
  simp only [diabetesCalculateRiskScore, List.getD_cons_zero, List.getD_cons_succ]
  have hg : (if g ≥ 140 then (35 : ℚ) else if g ≥ 100 then 20 else if g ≥ 70 then 5 else 0) ≤
      (if g' ≥ 140 then (35 : ℚ) else if g' ≥ 100 then 20 else if g' ≥ 70 then 5 else 0) := by
    split_ifs <;> linarith
  exact min_le_min
    (add_le_add_right (add_le_add_right (add_le_add_right
      (add_le_add_right (add_le_add_right hg _) _) _) _) _) le_rfl

/-- C4 witness: glucose monotonicity applied at 0 ≤ 160. -/
theorem diabetes_glucose_monotone_witness :
    (0 : ℚ) ≤ 160 ∧
    diabetesCalculateRiskScore [0, 0, 0, 0, 0, 0, 0, 0] ≤
    diabetesCalculateRiskScore [0, 160, 0, 0, 0, 0, 0, 0] :=
  ⟨by norm_num, diabetes_glucose_monotone 0 0 0 0 0 0 0 0 160 (by norm_num)⟩

/-! ## Claim C5: clamping of the risk scores -/

/-- C5 counterexample: the cardiac scorer has no lower clamp — its
`cp * 8` term is multiplicative, so a negative chest-pain-type input
drives the score below 0 (only `Math.min(score, 100)` is applied). -/
theorem heartRiskScore_negative :
    heartCalculateRiskScore [0, 0, -20, 0, 0, 0, 0, 0, 0, 0, 0, 0, 0] < 0 := by
  norm_num [heartCalculateRiskScore]

/-- C5 amended: every scorer clamps above at 100.  The metabolic, renal,
oncologic and hepatic scorers only ever add fixed nonnegative
contributions, so their scores always lie in [0, 100]; the cardiac
scorer has multiplicative terms (`cp*8`, `oldpeak*10`, `ca*8`) and its
score is nonnegative only for nonnegative feature vectors. -/
theorem riskScore_clamp_amended :
    (∀ fs, heartCalculateRiskScore fs ≤ 100) ∧
    (∀ fs, (∀ x ∈ fs, 0 ≤ x) → 0 ≤ heartCalculateRiskScore fs) ∧
    (∀ fs, 0 ≤ diabetesCalculateRiskScore fs ∧ diabetesCalculateRiskScore fs ≤ 100) ∧
    (∀ fs, 0 ≤ kidneyCalculateRiskScore fs ∧ kidneyCalculateRiskScore fs ≤ 100) ∧
    (∀ fs, 0 ≤ breastCalculateRiskScore fs ∧ breastCalculateRiskScore fs ≤ 100) ∧
    (∀ fs, 0 ≤ liverCalculateRiskScore fs ∧ liverCalculateRiskScore fs ≤ 100) := by
  refine ⟨?_, ?_, ?_, ?_, ?_, ?_⟩
  · intro fs
    simp only [heartCalculateRiskScore]
    exact min_le_right _ _
  · intro fs h
    simp only [heartCalculateRiskScore]
    refine le_min ?_ (by norm_num)
    have h2 : 0 ≤ fs.getD 2 0 * 8 := mul_nonneg (getD_nonneg fs h 2) (by norm_num)
    have h9 : 0 ≤ fs.getD 9 0 * 10 := mul_nonneg (getD_nonneg fs h 9) (by norm_num)
    have h11 : 0 ≤ fs.getD 11 0 * 8 := mul_nonneg (getD_nonneg fs h 11) (by norm_num)
    have i1 : 0 ≤ (if fs.getD 0 0 > 55 then (15 : ℚ) else if fs.getD 0 0 > 45 then 10 else 0) := by
      split_ifs <;> norm_num
    have i2 : 0 ≤ (if fs.getD 1 0 = 1 then (10 : ℚ) else 0) := by split_ifs <;> norm_num
    have i3 : 0 ≤ (if fs.getD 3 0 > 140 then (15 : ℚ) else if fs.getD 3 0 > 120 then 8 else 0) := by
      split_ifs <;> norm_num
    have i4 : 0 ≤ (if fs.getD 4 0 > 240 then (15 : ℚ) else if fs.getD 4 0 > 200 then 8 else 0) := by
      split_ifs <;> norm_num
    have i5 : 0 ≤ (if fs.getD 5 0 = 1 then (10 : ℚ) else 0) := by split_ifs <;> norm_num
    have i6 : 0 ≤ (if fs.getD 7 0 < 100 then (15 : ℚ) else 0) := by split_ifs <;> norm_num
    have i7 : 0 ≤ (if fs.getD 8 0 = 1 then (15 : ℚ) else 0) := by split_ifs <;> norm_num
    linarith
  · intro fs
    simp only [diabetesCalculateRiskScore]
    refine ⟨le_min ?_ (by norm_num), min_le_right _ _⟩
    have i1 : 0 ≤ (if fs.getD 1 0 ≥ 140 then (35 : ℚ) else if fs.getD 1 0 ≥ 100 then 20
        else if fs.getD 1 0 ≥ 70 then 5 else 0) := by split_ifs <;> norm_num
    have i2 : 0 ≤ (if fs.getD 5 0 ≥ 30 then (20 : ℚ) else if fs.getD 5 0 ≥ 25 then 10 else 0) := by
      split_ifs <;> norm_num
    have i3 : 0 ≤ (if fs.getD 7 0 > 45 then (10 : ℚ) else if fs.getD 7 0 > 35 then 5 else 0) := by
      split_ifs <;> norm_num
    have i4 : 0 ≤ (if fs.getD 2 0 > 80 then (10 : ℚ) else if fs.getD 2 0 > 70 then 5 else 0) := by
      split_ifs <;> norm_num
    have i5 : 0 ≤ (if fs.getD 4 0 > 200 ∨ (fs.getD 4 0 > 0 ∧ fs.getD 4 0 < 50) then (10 : ℚ)
        else 0) := by split_ifs <;> norm_num
    have i6 : 0 ≤ (if fs.getD 6 0 > 0.5 then (15 : ℚ) else 0) := by split_ifs <;> norm_num
    linarith
  · intro fs
    simp only [kidneyCalculateRiskScore]
    refine ⟨le_min ?_ (by norm_num), min_le_right _ _⟩
    have i1 : 0 ≤ (if fs.getD 7 0 > 40 then (20 : ℚ) else if fs.getD 7 0 > 20 then 10 else 0) := by
      split_ifs <;> norm_num
    have i2 : 0 ≤ (if fs.getD 8 0 > 1.4 then (25 : ℚ) else if fs.getD 8 0 > 1.0 then 12 else 0) := by
      split_ifs <;> norm_num
    have i3 : 0 ≤ (if fs.getD 9 0 < 10 then (15 : ℚ) else if fs.getD 9 0 < 12 then 8 else 0) := by
      split_ifs <;> norm_num
    have i4 : 0 ≤ (if fs.getD 3 0 > 2 then (15 : ℚ) else if fs.getD 3 0 > 0 then 8 else 0) := by
      split_ifs <;> norm_num
    have i5 : 0 ≤ (if fs.getD 11 0 = 1 then (10 : ℚ) else 0) := by split_ifs <;> norm_num
    have i6 : 0 ≤ (if fs.getD 12 0 = 1 then (10 : ℚ) else 0) := by split_ifs <;> norm_num
    have i7 : 0 ≤ (if fs.getD 0 0 > 60 then (10 : ℚ) else 0) := by split_ifs <;> norm_num
    linarith
  · intro fs
    simp only [breastCalculateRiskScore]
    refine ⟨le_min ?_ (by norm_num), min_le_right _ _⟩
    have i1 : 0 ≤ (if fs.getD 0 0 > 17 then (20 : ℚ) else if fs.getD 0 0 > 14 then 10 else 0) := by
      split_ifs <;> norm_num
    have i2 : 0 ≤ (if fs.getD 2 0 > 100 then (15 : ℚ) else if fs.getD 2 0 > 80 then 8 else 0) := by
      split_ifs <;> norm_num
    have i3 : 0 ≤ (if fs.getD 3 0 > 800 then (15 : ℚ) else if fs.getD 3 0 > 500 then 8 else 0) := by
      split_ifs <;> norm_num
    have i4 : 0 ≤ (if fs.getD 5 0 > 0.15 then (12 : ℚ) else if fs.getD 5 0 > 0.1 then 6 else 0) := by
      split_ifs <;> norm_num
    have i5 : 0 ≤ (if fs.getD 6 0 > 0.2 then (15 : ℚ) else if fs.getD 6 0 > 0.1 then 8 else 0) := by
      split_ifs <;> norm_num
    have i6 : 0 ≤ (if fs.getD 7 0 > 0.1 then (15 : ℚ) else if fs.getD 7 0 > 0.05 then 8 else 0) := by
      split_ifs <;> norm_num
    linarith
  · intro fs
    simp only [liverCalculateRiskScore]
    refine ⟨le_min ?_ (by norm_num), min_le_right _ _⟩
    have i1 : 0 ≤ (if fs.getD 2 0 > 2 then (20 : ℚ) else if fs.getD 2 0 > 1.2 then 10 else 0) := by
      split_ifs <;> norm_num
    have i2 : 0 ≤ (if fs.getD 3 0 > 0.8 then (15 : ℚ) else 0) := by split_ifs <;> norm_num
    have i3 : 0 ≤ (if fs.getD 4 0 > 300 then (15 : ℚ) else if fs.getD 4 0 > 200 then 8 else 0) := by
      split_ifs <;> norm_num
    have i4 : 0 ≤ (if fs.getD 5 0 > 100 then (15 : ℚ) else if fs.getD 5 0 > 50 then 8 else 0) := by
      split_ifs <;> norm_num
    have i5 : 0 ≤ (if fs.getD 6 0 > 100 then (15 : ℚ) else if fs.getD 6 0 > 50 then 8 else 0) := by
      split_ifs <;> norm_num
    have i6 : 0 ≤ (if fs.getD 7 0 < 6 ∨ fs.getD 7 0 > 8.3 then (10 : ℚ) else 0) := by
      split_ifs <;> norm_num
    have i7 : 0 ≤ (if fs.getD 8 0 < 3.5 then (10 : ℚ) else 0) := by split_ifs <;> norm_num
    have i8 : 0 ≤ (if fs.getD 9 0 < 1.0 then (10 : ℚ) else 0) := by split_ifs <;> norm_num
    have i9 : 0 ≤ (if fs.getD 0 0 > 60 then (5 : ℚ) else 0) := by split_ifs <;> norm_num
    linarith

/-- C5 witness: the nonnegativity part applied at an all-ones cardiac
feature vector. -/
theorem riskScore_clamp_amended_witness :
    (∀ x ∈ ([1, 1, 1, 1, 1, 1, 1, 1, 1, 1, 1, 1, 1] : List ℚ), 0 ≤ x) ∧
    0 ≤ heartCalculateRiskScore [1, 1, 1, 1, 1, 1, 1, 1, 1, 1, 1, 1, 1] :=
  ⟨by norm_num, riskScore_clamp_amended.2.1 _ (by norm_num)⟩

/-! ## Claim C7: the non-finite-feature ingestion filter -/

/-- A raw row carrying a positive-infinity feature
(`parseFloat("Infinity")`). -/
def infRow : RawRecord := ⟨[JSNum.inf], 1⟩

/-- C7 counterexample: the ingestion filter uses `isNaN`, which is false
for `±Infinity`, so a row with an infinite feature is stored in the
training set even though the feature is not finite. -/
theorem processData_keeps_infinite :
    processData [infRow] = [infRow] ∧ jsFinite JSNum.inf = false := by
  decide

/-- C7 amended: rows containing a `NaN` feature are silently excluded
(exclusion is a filter, never a failure) and every NaN-free row is kept —
but rows containing `±Infinity` pass the `isNaN` test, so stored records
are only guaranteed NaN-free, not finite. -/
theorem processData_nan_filter_amended :
    (∀ rows, ∀ r ∈ processData rows, ∀ x ∈ r.features, jsIsNaN x = false) ∧
    (∀ rows (r : RawRecord), r ∈ rows → r.features.any jsIsNaN = false →
      r ∈ processData rows) := by
  constructor
  · intro rows r hr x hx
    unfold processData at hr
    rw [List.mem_filter] at hr
    have h3 : r.features.any jsIsNaN = false := by simpa using hr.2
    by_contra hcon
    have hx' : jsIsNaN x = true := by simpa using hcon
    have : r.features.any jsIsNaN = true := List.any_eq_true.mpr ⟨x, hx, hx'⟩
    simp [h3] at this
  · intro rows r hr hnan
    unfold processData
    exact List.mem_filter.mpr ⟨hr, by simp [hnan]⟩

/-- C7 witness: both directions applied at a concrete one-row list. -/
theorem processData_nan_filter_amended_witness :
    (⟨[JSNum.num 1], 0⟩ : RawRecord) ∈ processData [⟨[JSNum.num 1], 0⟩] ∧
    jsIsNaN (JSNum.num 1) = false :=
  ⟨processData_nan_filter_amended.2 [⟨[JSNum.num 1], 0⟩] ⟨[JSNum.num 1], 0⟩
      (by decide) (by decide),
   processData_nan_filter_amended.1 [⟨[JSNum.num 1], 0⟩] ⟨[JSNum.num 1], 0⟩
      (by decide) (JSNum.num 1) (by decide)⟩

/-! ## Claim C8: the urgency classification -/

/-- A knowledge-base-shaped disease with the `mild` severity tier (the
static database contains no mild disease, but `calculateUrgency` is
total over diseases and the claim's table covers the tier). -/
def mildTestDisease : Disease :=
  { name := "Mild Test", symptoms := [], severity := "mild",
    description := "", specialization := "", recommendations := [] }

/-- C8: the urgency classification equals the spec's table exactly —
`emergency` iff serious with at least 3 matches; else `urgent` iff
serious or at least 4 matches; else `soon` iff moderate; else `routine` —
including the four tabulated cases (serious/3 → emergency, serious/2 →
urgent, moderate/1 → soon, mild/1 → routine). -/
theorem calculateUrgency_matches_spec :
    (∀ (d : Disease) (m : Nat), calculateUrgency d m = urgencySpec d.severity m) ∧
    calculateUrgency heartAttackDisease 3 = "emergency" ∧
    calculateUrgency heartAttackDisease 2 = "urgent" ∧
    calculateUrgency migraineDisease 1 = "soon" ∧
    calculateUrgency mildTestDisease 1 = "routine" := by
  refine ⟨fun d m => rfl, ?_, ?_, ?_, ?_⟩ <;> decide

/-! ## Claim C9: full-overlap confidence and zero-overlap exclusion -/

/-- C9: for every disease of the knowledge base, (1) querying exactly its
own symptom set with no demographics produces its entry with confidence
exactly 100, and (2) whenever a selection has zero overlap with the
disease's symptoms, the disease is absent from the ranked output
entirely. -/
theorem symptomMatcher_full_set_and_exclusion (d : Disease) (hd : d ∈ diseaseDatabase) :
    (entryFor d.symptoms nobody d).map (fun e => e.confidence) = some 100 ∧
    ∀ sel pd, (sel.filter fun s => d.symptoms.contains s).length = 0 →
      d.name ∉ (predictTop sel pd).map (fun e => e.disease) := by
  constructor
  · simp only [diseaseDatabase] at hd
    fin_cases hd <;>
      norm_num [entryFor, nobody, jsRound, List.filter_cons, Int.floor_eq_iff,
        heartAttackDisease, type2DiabetesDisease, ckdDisease, pneumoniaDisease,
        migraineDisease, asthmaDisease, gerdDisease, utiDisease,
        hypertensionDisease, depressionDisease, influenzaDisease]
  · intro sel pd h0 hmem
    rw [List.mem_map] at hmem
    obtain ⟨e, he, hename⟩ := hmem
    unfold predictTop at he
    have he1 : e ∈ (predictAll sel pd).insertionSort confGE := List.mem_of_mem_take he
    have he2 : e ∈ predictAll sel pd := (List.perm_insertionSort confGE _).mem_iff.mp he1
    unfold predictAll at he2
    rw [List.mem_filterMap] at he2
    obtain ⟨d', hd', hent⟩ := he2
    simp only [entryFor] at hent
    split at hent
    case isFalse => exact absurd hent (by simp)
    case isTrue hpos =>
      obtain rfl := Option.some.inj hent
      have hlen : 0 < (sel.filter fun s => d'.symptoms.contains s).length := by
        by_contra hz
        have hz0 : (sel.filter fun s => d'.symptoms.contains s).length = 0 := by omega
        rw [hz0] at hpos
        norm_num at hpos
      have hnames : (diseaseDatabase.map fun d => d.name).Nodup := by decide
      have hdd : d' = d :=
        List.inj_on_of_nodup_map hnames hd' hd (by simpa using hename)
      rw [hdd] at hlen
      omega

/-- C9 witness: the theorem applied at the first knowledge-base disease,
with a selection that overlaps none of its symptoms. -/
theorem symptomMatcher_full_set_and_exclusion_witness :
    (entryFor heartAttackDisease.symptoms nobody heartAttackDisease).map
      (fun e => e.confidence) = some 100 ∧
    heartAttackDisease.name ∉
      (predictTop ["no_such_symptom"] nobody).map (fun e => e.disease) :=
  ⟨(symptomMatcher_full_set_and_exclusion heartAttackDisease (by simp [diseaseDatabase])).1,
   (symptomMatcher_full_set_and_exclusion heartAttackDisease (by simp [diseaseDatabase])).2
     ["no_such_symptom"] nobody (by decide)⟩

end DiseasePredictor
